import Mathlib

/-!
Verification of `crates/zed/src/feedback_popover.rs`: a status-bar feedback
button that toggles a popover holding a multi-line editor, and a submit
operation that serializes a `FeedbackRequestBody` to JSON and POSTs it to
`{ZED_SERVER_URL}/api/feedback` from a detached asynchronous task.

The embedding translates the Rust source into pure Lean functions over an
explicit application state.  External collaborators (the `editor`, `client`,
`gpui`, `isahc` and `system_specs` crates) are modelled through the narrow
interfaces this file consumes.
-/

namespace FeedbackPopoverModel

/-- JSON values, modelling `serde_json::Value` for the purpose of describing
the serialized request body.  An object is a list of (field name, value)
pairs in serialization order. -/
inductive Json where
  | null : Json
  | bool : Bool → Json
  | num : Int → Json
  | str : String → Json
  | arr : List Json → Json
  | obj : List (String × Json) → Json
deriving Repr

/-- The field names of a JSON object, in serialization order (empty for
non-objects). -/
def Json.fieldNames : Json → List String
  | Json.obj fields => fields.map Prod.fst
  | _ => []

/-- Look up a field of a JSON object by name. -/
def Json.getField (j : Json) (name : String) : Option Json :=
  match j with
  | Json.obj fields => (fields.find? (fun p => p.1 == name)).map Prod.snd
  | _ => none

/-- Modelled from the spec: `SystemSpecs` (crate `system_specs`, not part of
the reviewed source) is "a system-specs collector producing a serializable
snapshot"; its serialization is an opaque nested JSON object. -/
structure SystemSpecs where
  specs : Json
deriving Repr

/-- Modelled from the spec: `ZED_SECRET_CLIENT_TOKEN` (crate `client`, not
part of the reviewed source) is a "fixed string constant" used as the
authentication token; its concrete value is opaque. -/
def ZED_SECRET_CLIENT_TOKEN : String := "ZED_SECRET_CLIENT_TOKEN"

/-- Embedding of `lazy_static! ZED_SERVER_URL` (feedback_popover.rs lines 24-27):
`std::env::var("ZED_SERVER_URL").unwrap_or_else(|_| "https://zed.dev".to_string())`.
The environment variable's value at process start is passed explicitly. -/
def ZED_SERVER_URL (env : Option String) : String :=
  env.getD "https://zed.dev"

/-- Embedding of `std::ops::Range<usize>`, with `usize` as `Nat`. -/
structure RangeUsize where
  start : Nat
  «end» : Nat
deriving Repr, DecidableEq

/-- Embedding of `FEEDBACK_CHAR_COUNT_RANGE` (lines 29-32): `Range { start: 5, end: 1000 }`. -/
def FEEDBACK_CHAR_COUNT_RANGE : RangeUsize :=
  { start := 5, «end» := 1000 }

/-- Checked `usize` subtraction: `a - b` succeeds exactly when it does not
underflow.  In the Rust source the subtraction is unchecked, so the `none`
case is the underflow (panic in debug builds, wrap in release builds). -/
def checkedSub (a b : Nat) : Option Nat :=
  if b ≤ a then some (a - b) else none

/-- The remaining-character computation of the `BufferEdited` subscription in
`FeedbackPopover::new` (lines 145-151):
`FEEDBACK_CHAR_COUNT_RANGE.end - buffer_len` in `usize` arithmetic. -/
def feedbackCharsRemaining (buffer_len : Nat) : Option Nat :=
  checkedSub FEEDBACK_CHAR_COUNT_RANGE.«end» buffer_len

/-- Embedding of `struct FeedbackRequestBody` (lines 125-131), fields in declaration
order; `metrics_id : Option<Arc<str>>` as `Option String`. -/
structure FeedbackRequestBody where
  feedback_text : String
  metrics_id : Option String
  system_specs : SystemSpecs
  token : String
deriving Repr

/-- Serde's `Serialize` for `Option<T>`: `Some(v)` serializes as `v`,
`None` serializes as JSON `null` (there is no
`#[serde(skip_serializing_if = ...)]` attribute on `metrics_id`). -/
def serializeOptionStr : Option String → Json
  | none => Json.null
  | some s => Json.str s

/-- The derived `Serialize` for `FeedbackRequestBody` under `serde_json`:
a JSON object with one field per struct field, in declaration order. -/
def FeedbackRequestBody.toJson (b : FeedbackRequestBody) : Json :=
  Json.obj
    [("feedback_text", Json.str b.feedback_text),
     ("metrics_id", serializeOptionStr b.metrics_id),
     ("system_specs", b.system_specs.specs),
     ("token", Json.str b.token)]

/-- Embedding of `struct FeedbackPopover` (lines 116-119): holds the handle (view id) of
its editor sub-view. -/
structure FeedbackPopoverState where
  feedback_editor : Nat
deriving Repr, DecidableEq

/-- Embedding of `struct FeedbackButton` (lines 41-43): an optional handle (view id) to
the popover view. -/
structure FeedbackButtonState where
  feedback_popover : Option Nat
deriving Repr, DecidableEq

/-- Embedding of `FeedbackButton::new` (lines 46-50). -/
def FeedbackButtonState.new : FeedbackButtonState :=
  { feedback_popover := none }

/-- The HTTP request value built by
`Request::post(endpoint).header("content-type", "application/json").body(bytes)`. -/
structure HttpRequest where
  method : String
  uri : String
  headers : List (String × String)
  body : Json
deriving Repr

/-- A spawned, not yet executed, submission task: the data moved into the
`async move` block of `submit_feedback` (lines 174-221). -/
structure SpawnedTask where
  feedback_endpoint : String
  feedback_text : String
  metrics_id : Option String
  system_specs : SystemSpecs
deriving Repr

/-- The mutable application state visible to this file: the button, the
views the context has created, the focus, the notify flag, and the list of
detached submission tasks spawned so far. -/
structure AppState where
  button : FeedbackButtonState
  popovers : List (Nat × FeedbackPopoverState)
  editors : List (Nat × String)
  nextViewId : Nat
  focus : Option Nat
  subscriptions : List Nat
  notified : Bool
  spawnedTasks : List SpawnedTask
deriving Repr

/-- Read the text of an editor view (`editor.read(cx).text(cx)`); a missing
view reads as empty. -/
def AppState.editorText (s : AppState) (id : Nat) : String :=
  ((s.editors.find? (fun p => p.1 == id)).map Prod.snd).getD ""

/-- Look up a popover view by handle. -/
def AppState.popoverAt (s : AppState) (id : Nat) : Option FeedbackPopoverState :=
  (s.popovers.find? (fun p => p.1 == id)).map Prod.snd

/-- Embedding of `FeedbackPopover::new` (lines 134-163): `cx.add_view` creates a fresh
multi-line editor (empty), `cx.focus(&feedback_editor)` focuses it, and a
detached `BufferEdited` subscription on it is registered.  Returns the new
popover struct together with the updated context. -/
def FeedbackPopoverState.new (s : AppState) : FeedbackPopoverState × AppState :=
  let editorId := s.nextViewId
  let s := { s with
    nextViewId := s.nextViewId + 1
    editors := s.editors ++ [(editorId, "")] }
  let s := { s with focus := some editorId }
  let s := { s with subscriptions := s.subscriptions ++ [editorId] }
  ({ feedback_editor := editorId }, s)

/-- Embedding of `FeedbackButton::toggle_feedback` (lines 52-62):
`match self.feedback_popover.take()` — `Option::take` moves the value out,
leaving `None` behind; the `Some(_)` arm then does nothing further, while
the `None` arm adds a `FeedbackPopover` view (whose constructor runs inside
`cx.add_view`) and stores its handle.  Finally `cx.notify()`. -/
def FeedbackButtonState.toggle_feedback (s : AppState) : AppState :=
  match s.button.feedback_popover with
  | some _ =>
    let s := { s with button := { feedback_popover := none } }
    { s with notified := true }
  | none =>
    let popoverId := s.nextViewId
    let s := { s with nextViewId := s.nextViewId + 1 }
    let (pop, s) := FeedbackPopoverState.new s
    let s := { s with popovers := s.popovers ++ [(popoverId, pop)] }
    let s := { s with button := { feedback_popover := some popoverId } }
    { s with notified := true }

/-- The read-only globals `submit_feedback` consumes: the process-start
`ZED_SERVER_URL` environment value, and the `Arc<Client>` global's
`metrics_id()` plus the `SystemSpecs::new(cx)` snapshot. -/
structure Globals where
  serverUrlEnv : Option String
  metrics_id : Option String
  system_specs : SystemSpecs
deriving Repr

/-- Embedding of `FeedbackPopover::submit_feedback` (lines 165-222): reads the editor's
text, computes `feedback_endpoint = format!("{}/api/feedback", *ZED_SERVER_URL)`,
reads `metrics_id` and the HTTP client from the global client, and spawns
one detached task capturing those values.  No UI state is modified. -/
def FeedbackPopoverState.submit_feedback
    (self : FeedbackPopoverState) (g : Globals) (s : AppState) : AppState :=
  let feedback_text := s.editorText self.feedback_editor
  let feedback_endpoint := ZED_SERVER_URL g.serverUrlEnv ++ "/api/feedback"
  let task : SpawnedTask :=
    { feedback_endpoint := feedback_endpoint
      feedback_text := feedback_text
      metrics_id := g.metrics_id
      system_specs := g.system_specs }
  { s with spawnedTasks := s.spawnedTasks ++ [task] }

/-- The error value the detached task's `anyhow::Result` can carry, one
constructor per failure point of lines 188-205: `serde_json::to_vec`,
`Request::post(..).body(..)`, the transport (`send` and the body read), and
the non-success HTTP status (`bail!("Error")`, a generic error built from a
fixed literal, with no data parsed from the response body). -/
inductive SubmitError where
  | serializationFailed (e : String)
  | requestConstructionFailed (e : String)
  | transportFailed (e : String)
  | httpStatusNotSuccess
deriving Repr, DecidableEq

/-- An HTTP response as the task observes it: a status code and a body text
(the result of `read_to_string`). -/
structure HttpResponse where
  status : Nat
  body : String
deriving Repr, DecidableEq

/-- The outcomes of the external fallible operations inside the task, as an
oracle: whether `serde_json::to_vec` succeeds, whether request construction
succeeds, the transport outcome of `http_client.send`, and whether
`read_to_string` on the response body succeeds. -/
structure TaskEnv where
  serializeOk : Bool
  buildOk : Bool
  sendResult : Except String HttpResponse
  readBodyOk : Bool
deriving Repr

/-- Embedding of `serde_json::to_vec(&request)` (line 188); the bytes are represented by
the JSON value they encode. -/
def serdeJsonToVec (b : FeedbackRequestBody) (ok : Bool) :
    Except String Json :=
  if ok then Except.ok b.toJson else Except.error "serialization error"

/-- Embedding of `Request::post(feedback_endpoint).header("content-type", "application/json").body(json_bytes.into())`
(lines 190-192). -/
def buildPostRequest (uri : String) (body : Json) (ok : Bool) :
    Except String HttpRequest :=
  if ok then
    Except.ok
      { method := "POST"
        uri := uri
        headers := [("content-type", "application/json")]
        body := body }
  else Except.error "request construction error"

/-- Embedding of `response.body_mut().read_to_string(&mut body)` (line 196). -/
def readToString (resp : HttpResponse) (ok : Bool) : Except String String :=
  if ok then Except.ok resp.body else Except.error "body read error"

/-- Modelled from the spec: `http::StatusCode::is_success` (external `http`
crate) — "Expects any 2xx response"; success is status 200 through 299. -/
def isSuccessStatus (status : Nat) : Bool :=
  200 ≤ status && status < 300

/-- The body the task serializes (lines 181-186): the `FeedbackRequestBody`
built from the captured text, metrics id, system specs and the fixed
`ZED_SECRET_CLIENT_TOKEN`. -/
def SpawnedTask.requestBody (t : SpawnedTask) : FeedbackRequestBody :=
  { feedback_text := t.feedback_text
    metrics_id := t.metrics_id
    system_specs := t.system_specs
    token := ZED_SECRET_CLIENT_TOKEN }

/-- Running the detached `async move` block of `submit_feedback`
(lines 174-221) against an oracle of external outcomes.  Returns the task's
`anyhow::Result<()>` together with the list of outbound HTTP requests
actually handed to `http_client.send`. -/
def runSubmitTask (t : SpawnedTask) (env : TaskEnv) :
    Except SubmitError Unit × List HttpRequest :=
  match serdeJsonToVec t.requestBody env.serializeOk with
  | Except.error e => (Except.error (SubmitError.serializationFailed e), [])
  | Except.ok json_bytes =>
    match buildPostRequest t.feedback_endpoint json_bytes env.buildOk with
    | Except.error e => (Except.error (SubmitError.requestConstructionFailed e), [])
    | Except.ok request =>
      match env.sendResult with
      | Except.error e => (Except.error (SubmitError.transportFailed e), [request])
      | Except.ok response =>
        match readToString response env.readBodyOk with
        | Except.error e => (Except.error (SubmitError.transportFailed e), [request])
        | Except.ok _body =>
          if isSuccessStatus response.status then (Except.ok (), [request])
          else (Except.error SubmitError.httpStatusNotSuccess, [request])

/-- What the task does to the application state when it completes
(lines 198-218 after the awaits): nothing — the only state-updating code in
the task body (lines 209-216) is commented out, and the task captures no
handle to the popover or button.  Completion is the identity on the UI
state, whatever the task's result. -/
def applyTaskCompletion (s : AppState) (_result : Except SubmitError Unit) :
    AppState :=
  s

/-- The actions of `actions!(feedback, [ToggleFeedbackPopover, SubmitFeedback])`
(line 34). -/
inductive Action where
  | ToggleFeedbackPopover
  | SubmitFeedback
deriving Repr, DecidableEq

/-- Dispatching one action, as wired by `init` (lines 36-39):
`ToggleFeedbackPopover` runs `FeedbackButton::toggle_feedback`;
`SubmitFeedback` runs `FeedbackPopover::submit_feedback` on the open
popover view (no-op when no popover is open). -/
def dispatchAction (g : Globals) (s : AppState) : Action → AppState
  | Action.ToggleFeedbackPopover => FeedbackButtonState.toggle_feedback s
  | Action.SubmitFeedback =>
    match s.button.feedback_popover with
    | none => s
    | some pid =>
      match s.popoverAt pid with
      | none => s
      | some pop => pop.submit_feedback g s

/-- The click actions registered on the "Submit Feedback" mouse region in
`FeedbackPopover::render` (lines 265-272): `on_click(Left, dispatch SubmitFeedback)`
then `on_click(Left, dispatch ToggleFeedbackPopover)`, in registration
order.  Modelled from the spec: "Clicking submit also immediately
re-dispatches the toggle action" — a left click runs both registered
handlers in order (the handler-accumulation semantics live in the external
`gpui` crate). -/
def renderSubmitClickActions : List Action :=
  [Action.SubmitFeedback, Action.ToggleFeedbackPopover]

/-- A left click on the "Submit Feedback" label: dispatch each registered
click action in order. -/
def clickSubmitButton (g : Globals) (s : AppState) : AppState :=
  renderSubmitClickActions.foldl (fun st a => dispatchAction g st a) s

/-- The element tree `FeedbackButton::render` (lines 74-103) produces, at
the level of detail the claims need: the label text, and the overlay child
holding the popover view when one is open. -/
structure RenderedButton where
  label : String
  overlayChild : Option Nat
deriving Repr, DecidableEq

/-- Embedding of `FeedbackButton::render`: a pure function of the button state — it
draws the "Give Feedback" label and, via `with_children` on
`self.feedback_popover.as_ref()`, an overlay child exactly when the popover
handle is present.  It mutates no state. -/
def FeedbackButtonState.render (b : FeedbackButtonState) : RenderedButton :=
  { label := "Give Feedback"
    overlayChild := b.feedback_popover }

/-- The number of popover references the button holds (the popover-open
count): 0 when `feedback_popover` is `None`, 1 when `Some`. -/
def popoverRefCount (b : FeedbackButtonState) : Nat :=
  match b.feedback_popover with
  | none => 0
  | some _ => 1

/-- A concrete closed-popover application state: the status bar as created
at application init. -/
def sampleClosedState : AppState :=
  { button := FeedbackButtonState.new
    popovers := []
    editors := []
    nextViewId := 0
    focus := none
    subscriptions := []
    notified := false
    spawnedTasks := [] }

/-- A concrete open-popover application state: popover view 0 holding
editor view 1, whose buffer reads "hello". -/
def sampleOpenState : AppState :=
  { button := { feedback_popover := some 0 }
    popovers := [(0, { feedback_editor := 1 })]
    editors := [(1, "hello")]
    nextViewId := 2
    focus := some 1
    subscriptions := [1]
    notified := false
    spawnedTasks := [] }

/-- Concrete globals: no environment override, a metrics identifier
present, and a small system-specs snapshot. -/
def sampleGlobals : Globals :=
  { serverUrlEnv := none
    metrics_id := some "metrics-0000"
    system_specs := { specs := Json.obj [("os", Json.str "macOS")] } }

/-- A concrete oracle in which every external operation succeeds and the
server answers 200. -/
def sampleTaskEnv : TaskEnv :=
  { serializeOk := true
    buildOk := true
    sendResult := Except.ok { status := 200, body := "" }
    readBodyOk := true }

theorem popoverRefCount_le_one (b : FeedbackButtonState) :
    popoverRefCount b ≤ 1 := by
  cases h : b.feedback_popover <;> simp [popoverRefCount, h]

theorem runSubmitTask_sends_one (t : SpawnedTask) (env : TaskEnv)
    (hser : env.serializeOk = true) (hbuild : env.buildOk = true) :
    (runSubmitTask t env).2
      = [{ method := "POST"
           uri := t.feedback_endpoint
           headers := [("content-type", "application/json")]
           body := t.requestBody.toJson }] := by
  cases henv : env.sendResult with
  | error e =>
    simp [runSubmitTask, serdeJsonToVec, buildPostRequest, hser, hbuild, henv]
  | ok resp =>
    cases hr : env.readBodyOk
    · simp [runSubmitTask, serdeJsonToVec, buildPostRequest, readToString,
            hser, hbuild, henv, hr]
    · by_cases hst : isSuccessStatus resp.status = true <;>
        simp [runSubmitTask, serdeJsonToVec, buildPostRequest, readToString,
              hser, hbuild, henv, hr, hst]

/-- C1 counterexample: in the concrete open state (popover handle 0),
invoking `toggle_feedback` clears the button's popover reference — the
popover does not remain open, refuting the claim that re-invoking toggle
while open is a no-op that keeps the popover reference. -/
theorem toggle_open_is_not_noop :
    sampleOpenState.button.feedback_popover = some 0 ∧
    (FeedbackButtonState.toggle_feedback sampleOpenState).button.feedback_popover
      = none :=
  ⟨rfl, rfl⟩

/-- C1 amended: for every button state in which the popover is open,
invoking the toggle action clears the button's popover reference
(`Option::take` leaves `None` behind and the `Some` arm stores nothing
back), closing the popover; toggling while open is the close path, not a
no-op. -/
theorem toggle_open_clears_reference (s : AppState) (pid : Nat)
    (h : s.button.feedback_popover = some pid) :
    (FeedbackButtonState.toggle_feedback s).button.feedback_popover = none ∧
    (FeedbackButtonState.toggle_feedback s).notified = true := by
  simp [FeedbackButtonState.toggle_feedback, h]

/-- Witness for the amended C1 theorem at the concrete open state. -/
theorem toggle_open_clears_reference_witness :
    (FeedbackButtonState.toggle_feedback sampleOpenState).button.feedback_popover
      = none ∧
    (FeedbackButtonState.toggle_feedback sampleOpenState).notified = true :=
  toggle_open_clears_reference sampleOpenState 0 rfl

/-- C2 counterexample: a submission body carrying the editor text "hello"
and no metrics identifier serializes to an object whose field list still
contains "metrics_id" — bound to JSON null, not a string and not absent —
refuting the claim that `metrics_id` is absent from the object when no
identifier is present. -/
theorem metrics_id_absent_refuted :
    Json.fieldNames
        (FeedbackRequestBody.toJson
          { feedback_text := "hello"
            metrics_id := none
            system_specs := { specs := Json.obj [] }
            token := ZED_SECRET_CLIENT_TOKEN })
      = ["feedback_text", "metrics_id", "system_specs", "token"] ∧
    Json.getField
        (FeedbackRequestBody.toJson
          { feedback_text := "hello"
            metrics_id := none
            system_specs := { specs := Json.obj [] }
            token := ZED_SECRET_CLIENT_TOKEN })
        "metrics_id"
      = some Json.null :=
  ⟨rfl, rfl⟩

/-- C2 amended: for every submission with editor text t, the spawned task
carries t, the metrics identifier and the system specs, and its serialized
request body is a JSON object with exactly the four fields `feedback_text`
(the string t), `metrics_id` (a string when an identifier is present, and
JSON null — with the field still present — otherwise), `system_specs`, and
`token` (the fixed constant `ZED_SECRET_CLIENT_TOKEN`). -/
theorem submit_body_exact_fields (self : FeedbackPopoverState) (g : Globals)
    (s : AppState) (t : SpawnedTask) (m : String) :
    (self.submit_feedback g s).spawnedTasks
      = s.spawnedTasks
        ++ [{ feedback_endpoint := ZED_SERVER_URL g.serverUrlEnv ++ "/api/feedback"
              feedback_text := s.editorText self.feedback_editor
              metrics_id := g.metrics_id
              system_specs := g.system_specs }] ∧
    t.requestBody.toJson
      = Json.obj
          [("feedback_text", Json.str t.feedback_text),
           ("metrics_id", serializeOptionStr t.metrics_id),
           ("system_specs", t.system_specs.specs),
           ("token", Json.str ZED_SECRET_CLIENT_TOKEN)] ∧
    serializeOptionStr (some m) = Json.str m ∧
    serializeOptionStr none = Json.null :=
  ⟨rfl, rfl, rfl, rfl⟩

/-- C3: for every editor text — the 5-1000 character range is never
consulted on the submit path, so any length, including 0 and more than
1000, passes — invoking `submit_feedback` spawns exactly one task, and
running that task (with the external serialization and request-construction
steps succeeding) hands exactly one POST request for `{base}/api/feedback`
to the HTTP client, whatever the transport outcome. -/
theorem submit_issues_one_post (self : FeedbackPopoverState) (g : Globals)
    (s : AppState) (env : TaskEnv)
    (hser : env.serializeOk = true) (hbuild : env.buildOk = true) :
    (self.submit_feedback g s).spawnedTasks
      = s.spawnedTasks
        ++ [{ feedback_endpoint := ZED_SERVER_URL g.serverUrlEnv ++ "/api/feedback"
              feedback_text := s.editorText self.feedback_editor
              metrics_id := g.metrics_id
              system_specs := g.system_specs }] ∧
    (runSubmitTask
        { feedback_endpoint := ZED_SERVER_URL g.serverUrlEnv ++ "/api/feedback"
          feedback_text := s.editorText self.feedback_editor
          metrics_id := g.metrics_id
          system_specs := g.system_specs } env).2.map HttpRequest.uri
      = [ZED_SERVER_URL g.serverUrlEnv ++ "/api/feedback"] ∧
    (runSubmitTask
        { feedback_endpoint := ZED_SERVER_URL g.serverUrlEnv ++ "/api/feedback"
          feedback_text := s.editorText self.feedback_editor
          metrics_id := g.metrics_id
          system_specs := g.system_specs } env).2.map HttpRequest.method
      = ["POST"] := by
  refine ⟨rfl, ?_, ?_⟩ <;> rw [runSubmitTask_sends_one _ env hser hbuild] <;> rfl

/-- Witness for C3 at the concrete open state with all-success oracle. -/
theorem submit_issues_one_post_witness :
    sampleTaskEnv.serializeOk = true ∧
    sampleTaskEnv.buildOk = true ∧
    ((FeedbackPopoverState.submit_feedback { feedback_editor := 1 }
        sampleGlobals sampleOpenState).spawnedTasks
      = sampleOpenState.spawnedTasks
        ++ [{ feedback_endpoint :=
                ZED_SERVER_URL sampleGlobals.serverUrlEnv ++ "/api/feedback"
              feedback_text := sampleOpenState.editorText 1
              metrics_id := sampleGlobals.metrics_id
              system_specs := sampleGlobals.system_specs }] ∧
    (runSubmitTask
        { feedback_endpoint :=
            ZED_SERVER_URL sampleGlobals.serverUrlEnv ++ "/api/feedback"
          feedback_text := sampleOpenState.editorText 1
          metrics_id := sampleGlobals.metrics_id
          system_specs := sampleGlobals.system_specs }
        sampleTaskEnv).2.map HttpRequest.uri
      = [ZED_SERVER_URL sampleGlobals.serverUrlEnv ++ "/api/feedback"] ∧
    (runSubmitTask
        { feedback_endpoint :=
            ZED_SERVER_URL sampleGlobals.serverUrlEnv ++ "/api/feedback"
          feedback_text := sampleOpenState.editorText 1
          metrics_id := sampleGlobals.metrics_id
          system_specs := sampleGlobals.system_specs }
        sampleTaskEnv).2.map HttpRequest.method
      = ["POST"]) :=
  ⟨rfl, rfl,
    submit_issues_one_post { feedback_editor := 1 } sampleGlobals
      sampleOpenState sampleTaskEnv rfl rfl⟩

/-- C4: the remaining-character computation of the buffer-edited
subscription, `FEEDBACK_CHAR_COUNT_RANGE.end - buffer_len` in unsigned
arithmetic, succeeds exactly for buffer lengths at most 1000; at length
1001 (any text longer than 1000 characters) the subtraction underflows, so
the error branch is reachable. -/
theorem feedbackCharsRemaining_succeeds_iff_le_1000 :
    (∀ buffer_len : Nat,
      (feedbackCharsRemaining buffer_len).isSome ↔ buffer_len ≤ 1000) ∧
    feedbackCharsRemaining 1001 = none := by
  constructor
  · intro n
    simp only [feedbackCharsRemaining, checkedSub, FEEDBACK_CHAR_COUNT_RANGE]
    split <;> simp_all
  · rfl

/-- C5: at most one popover is open at a time: the button's
`feedback_popover` field holds zero or one popover reference
(`popoverRefCount` is at most 1), both the toggle operation and
submit-action dispatch preserve this bound, and rendering only reads the
reference (its overlay child equals the current reference), mutating
nothing. -/
theorem at_most_one_popover (s : AppState) (g : Globals) :
    popoverRefCount s.button ≤ 1 ∧
    popoverRefCount (FeedbackButtonState.toggle_feedback s).button ≤ 1 ∧
    popoverRefCount (dispatchAction g s Action.SubmitFeedback).button ≤ 1 ∧
    (FeedbackButtonState.render s.button).overlayChild
      = s.button.feedback_popover :=
  ⟨popoverRefCount_le_one _, popoverRefCount_le_one _,
   popoverRefCount_le_one _, rfl⟩

/-- C6: from every closed state, toggling creates exactly one new popover
view (handle `s.nextViewId`, holding the freshly created editor view
`s.nextViewId + 1`), stores its handle in the button's reference, and
transfers input focus to that popover's editor. -/
theorem toggle_closed_opens_and_focuses (s : AppState)
    (h : s.button.feedback_popover = none) :
    (FeedbackButtonState.toggle_feedback s).popovers
      = s.popovers ++ [(s.nextViewId, { feedback_editor := s.nextViewId + 1 })] ∧
    (FeedbackButtonState.toggle_feedback s).button.feedback_popover
      = some s.nextViewId ∧
    (FeedbackButtonState.toggle_feedback s).editors
      = s.editors ++ [(s.nextViewId + 1, "")] ∧
    (FeedbackButtonState.toggle_feedback s).focus = some (s.nextViewId + 1) := by
  simp [FeedbackButtonState.toggle_feedback, FeedbackPopoverState.new, h]

/-- Witness for C6 at the concrete closed state created at init. -/
theorem toggle_closed_opens_and_focuses_witness :
    (FeedbackButtonState.toggle_feedback sampleClosedState).popovers
      = sampleClosedState.popovers
        ++ [(sampleClosedState.nextViewId,
             { feedback_editor := sampleClosedState.nextViewId + 1 })] ∧
    (FeedbackButtonState.toggle_feedback sampleClosedState).button.feedback_popover
      = some sampleClosedState.nextViewId ∧
    (FeedbackButtonState.toggle_feedback sampleClosedState).editors
      = sampleClosedState.editors ++ [(sampleClosedState.nextViewId + 1, "")] ∧
    (FeedbackButtonState.toggle_feedback sampleClosedState).focus
      = some (sampleClosedState.nextViewId + 1) :=
  toggle_closed_opens_and_focuses sampleClosedState rfl

/-- C7: the POST target is `{base}/api/feedback`, where the base is the
`ZED_SERVER_URL` environment variable when set at process start and
`https://zed.dev` otherwise; the task spawned by `submit_feedback` carries
exactly that endpoint, and the constructed request is a POST carrying the
header `content-type: application/json`. -/
theorem post_target_url_and_header (self : FeedbackPopoverState) (g : Globals)
    (s : AppState) (body : Json) (u : String) :
    ZED_SERVER_URL none = "https://zed.dev" ∧
    ZED_SERVER_URL (some u) = u ∧
    (self.submit_feedback g s).spawnedTasks.map SpawnedTask.feedback_endpoint
      = s.spawnedTasks.map SpawnedTask.feedback_endpoint
        ++ [ZED_SERVER_URL g.serverUrlEnv ++ "/api/feedback"] ∧
    buildPostRequest (ZED_SERVER_URL g.serverUrlEnv ++ "/api/feedback") body true
      = Except.ok
          { method := "POST"
            uri := ZED_SERVER_URL g.serverUrlEnv ++ "/api/feedback"
            headers := [("content-type", "application/json")]
            body := body } := by
  refine ⟨rfl, rfl, ?_, rfl⟩
  simp [FeedbackPopoverState.submit_feedback]

/-- C8: the detached task's result is success exactly when serialization,
request construction, the transport send and the response-body read all
succeed and the HTTP status is 2xx; each failure yields the corresponding
one of the four `SubmitError` classes (and `SubmitError` has exactly those
four constructors); the result never depends on the response body's content
(no structured error-body parsing), and a non-2xx status yields the fixed
generic `httpStatusNotSuccess` value. -/
theorem task_error_taxonomy (t : SpawnedTask) (env : TaskEnv)
    (resp : HttpResponse) (e b1 b2 : String) (status : Nat) :
    ((runSubmitTask t env).1 = Except.ok () ↔
      env.serializeOk = true ∧ env.buildOk = true ∧ env.readBodyOk = true ∧
      ∃ r : HttpResponse,
        env.sendResult = Except.ok r ∧ isSuccessStatus r.status = true) ∧
    (runSubmitTask t { env with serializeOk := false }).1
      = Except.error (SubmitError.serializationFailed "serialization error") ∧
    (runSubmitTask t { env with serializeOk := true, buildOk := false }).1
      = Except.error
          (SubmitError.requestConstructionFailed "request construction error") ∧
    (runSubmitTask t { env with serializeOk := true, buildOk := true,
                                sendResult := Except.error e }).1
      = Except.error (SubmitError.transportFailed e) ∧
    (runSubmitTask t { env with serializeOk := true, buildOk := true,
                                sendResult := Except.ok resp,
                                readBodyOk := false }).1
      = Except.error (SubmitError.transportFailed "body read error") ∧
    (runSubmitTask t { env with serializeOk := true, buildOk := true,
                                sendResult :=
                                  Except.ok { status := status, body := b1 },
                                readBodyOk := true }).1
      = (runSubmitTask t { env with serializeOk := true, buildOk := true,
                                    sendResult :=
                                      Except.ok { status := status, body := b2 },
                                    readBodyOk := true }).1 ∧
    (runSubmitTask t { env with serializeOk := true, buildOk := true,
                                sendResult := Except.ok resp,
                                readBodyOk := true }).1
      = (if isSuccessStatus resp.status then Except.ok ()
         else Except.error SubmitError.httpStatusNotSuccess) := by
  obtain ⟨ser, build, send, read⟩ := env
  refine ⟨?_, ?_, ?_, ?_, ?_, ?_, ?_⟩
  · cases ser <;> cases build <;> cases read <;> cases send <;>
      simp [runSubmitTask, serdeJsonToVec, buildPostRequest, readToString]
    split <;> simp_all
  · simp [runSubmitTask, serdeJsonToVec]
  · simp [runSubmitTask, serdeJsonToVec, buildPostRequest]
  · simp [runSubmitTask, serdeJsonToVec, buildPostRequest]
  · simp [runSubmitTask, serdeJsonToVec, buildPostRequest, readToString]
  · simp [runSubmitTask, serdeJsonToVec, buildPostRequest, readToString]
  · simp [runSubmitTask, serdeJsonToVec, buildPostRequest, readToString]
    split <;> rfl

/-- C9: the submission task mutates no UI-visible state: for every state,
task and oracle outcome, applying the task's completion to the application
state is the identity (the task body updates no view state — the only such
code in the source is commented out), and the synchronous part of
`submit_feedback` itself leaves the button, popovers, editors, focus and
notify flag unchanged, only appending to the spawned-task list. -/
theorem task_completion_preserves_state (s : AppState)
    (self : FeedbackPopoverState) (g : Globals) (t : SpawnedTask)
    (env : TaskEnv) :
    applyTaskCompletion s (runSubmitTask t env).1 = s ∧
    (self.submit_feedback g s).button = s.button ∧
    (self.submit_feedback g s).popovers = s.popovers ∧
    (self.submit_feedback g s).editors = s.editors ∧
    (self.submit_feedback g s).focus = s.focus ∧
    (self.submit_feedback g s).notified = s.notified :=
  ⟨rfl, rfl, rfl, rfl, rfl, rfl⟩

/-- C10: the "Submit Feedback" click region registers the submit action and
then the toggle action, in that order; hence a left click on a state with
the popover open spawns the one submission task and then closes the popover
— the resulting UI state is fixed at click time, independent of (and
without waiting for) the network call's completion or success. -/
theorem click_submit_dispatches_submit_then_toggle (g : Globals)
    (s : AppState) (pid : Nat) (pop : FeedbackPopoverState)
    (hopen : s.button.feedback_popover = some pid)
    (hpop : s.popoverAt pid = some pop) :
    renderSubmitClickActions
      = [Action.SubmitFeedback, Action.ToggleFeedbackPopover] ∧
    (clickSubmitButton g s).button.feedback_popover = none ∧
    (clickSubmitButton g s).spawnedTasks
      = s.spawnedTasks
        ++ [{ feedback_endpoint := ZED_SERVER_URL g.serverUrlEnv ++ "/api/feedback"
              feedback_text := s.editorText pop.feedback_editor
              metrics_id := g.metrics_id
              system_specs := g.system_specs }] := by
  refine ⟨rfl, ?_, ?_⟩ <;>
    simp [clickSubmitButton, renderSubmitClickActions, dispatchAction, hopen,
          hpop, FeedbackPopoverState.submit_feedback,
          FeedbackButtonState.toggle_feedback]

/-- Witness for C10 at the concrete open state. -/
theorem click_submit_dispatches_submit_then_toggle_witness :
    sampleOpenState.button.feedback_popover = some 0 ∧
    sampleOpenState.popoverAt 0 = some { feedback_editor := 1 } ∧
    (renderSubmitClickActions
       = [Action.SubmitFeedback, Action.ToggleFeedbackPopover] ∧
     (clickSubmitButton sampleGlobals sampleOpenState).button.feedback_popover
       = none ∧
     (clickSubmitButton sampleGlobals sampleOpenState).spawnedTasks
       = sampleOpenState.spawnedTasks
         ++ [{ feedback_endpoint :=
                 ZED_SERVER_URL sampleGlobals.serverUrlEnv ++ "/api/feedback"
               feedback_text := sampleOpenState.editorText 1
               metrics_id := sampleGlobals.metrics_id
               system_specs := sampleGlobals.system_specs }]) :=
  ⟨rfl, rfl,
    click_submit_dispatches_submit_then_toggle sampleGlobals sampleOpenState 0
      { feedback_editor := 1 } rfl rfl⟩

end FeedbackPopoverModel
